import Mathlib

/-!
Shallow embedding of `java_type_checker/expressions.py`: the expression AST
(`Variable`, `Literal`, `NullLiteral`, `MethodCall`, `ConstructorCall`) with its
`static_type` and `check_types` operations, and the shared argument-compatibility
routine `typecheck_arguments_function_call`.

The type model (`types.py`) is not part of the sources; following the spec it is
an external collaborator supplying `is_subtype_of`, method/constructor resolution,
type names and the two distinguished singletons `Type.null` and `Type.object`.
It is embedded as an abstract `TypeModel` structure.

Python exceptions are embedded as `Except JavaError`; `JavaError` carries the
formatted message string built exactly as the source builds it.
-/

/-- An opaque type identity: Python `Type` objects compare by identity. -/
structure Ty where
  id : Nat
deriving DecidableEq, Repr

/-- A resolved method (or constructor) signature: ordered parameter types and a
return type.  The source accesses only `argument_types` on constructors. -/
structure MethodSignature where
  argument_types : List Ty
  return_type : Ty
deriving DecidableEq, Repr

/-- Modelled from the spec: the external type model (`types.py`, absent from the
sources).  It supplies `is_subtype_of`, method resolution by name (`none` means
the resolution fails/signals, spec section 6), an optional constructor signature per
type, a printable name per type, and the distinguished singletons `Type.null`
and `Type.object`. -/
structure TypeModel where
  is_subtype_of : Ty → Ty → Bool
  method_table : Ty → String → Option MethodSignature
  ctor_table : Ty → Option MethodSignature
  name : Ty → String
  null : Ty
  object : Ty

/-- The failure channel of `check_types`/`static_type`: `NoSuchMethod` (defined in
`types.py`, raised for a null receiver and for failed method resolution) and
`JavaTypeError` (defined in `expressions.py`). -/
inductive JavaError where
  | NoSuchMethod (msg : String)
  | JavaTypeError (msg : String)
deriving DecidableEq, Repr

/-- The expression AST of `expressions.py`.  `NullLiteral` is a `Literal`
specialization in Python and is embedded below as a definition. -/
inductive Expression where
  | Variable (name : String) (declared_type : Ty)
  | Literal (value : String) (type : Ty)
  | MethodCall (receiver : Expression) (method_name : String) (args : List Expression)
  | ConstructorCall (instantiated_type : Ty) (args : List Expression)
deriving Repr

/-- `NullLiteral()`: a literal with value `"null"` and type `Type.null`. -/
def NullLiteral (M : TypeModel) : Expression :=
  .Literal "null" M.null

/-- Modelled from the spec: `Type.method_named(name)` resolves a method and
"fails/signals if absent" (spec section 6); the failure class `NoSuchMethod` is the
one `expressions.py` imports from `types.py`. -/
def method_named (M : TypeModel) (t : Ty) (n : String) : Except JavaError MethodSignature :=
  match M.method_table t n with
  | some m => .ok m
  | none => .error (.NoSuchMethod ("No method " ++ n ++ " on type " ++ M.name t))

/-- `Expression.static_type()`: the compile-time type of the expression.
`MethodCall.static_type` resolves the method on the receiver's static type and
may therefore fail; the other variants return their stored type directly. -/
def static_type (M : TypeModel) : Expression → Except JavaError Ty
  | .Variable _ declared_type => .ok declared_type
  | .Literal _ type => .ok type
  | .MethodCall receiver method_name _ =>
    match static_type M receiver with
    | .error e => .error e
    | .ok t =>
      match method_named M t method_name with
      | .error e => .error e
      | .ok m => .ok m.return_type
  | .ConstructorCall instantiated_type _ => .ok instantiated_type

/-- `typecheck_arguments_function_call(args, types)`: zips the two lists and
judges each positional pair: compatible if the argument's static type is a
subtype of the expected type, or (special case) if it is `Type.null` and the
expected type is a subtype of `Type.object`; returns `False` at the first
incompatible pair, `True` when the zip is exhausted. -/
def typecheck_arguments_function_call (M : TypeModel) :
    List Expression → List Ty → Except JavaError Bool
  | arg :: args, type :: types =>
    match static_type M arg with
    | .error e => .error e
    | .ok st =>
      if M.is_subtype_of st type then
        typecheck_arguments_function_call M args types
      else if st = M.null ∧ M.is_subtype_of type M.object then
        typecheck_arguments_function_call M args types
      else .ok false
  | _, _ => .ok true

/-- The format string of line 88: `"Cannot invoke method " + self.method_name + "() on " + static_type.name`. -/
def cannot_invoke_message (method_name tyname : String) : String :=
  "Cannot invoke method " ++ method_name ++ "() on " ++ tyname

/-- The format string `"Wrong number of arguments for {}.{}(): expected {}, got {}"`. -/
def wrong_arity_method_message (tyname method_name : String) (expected got : Nat) : String :=
  "Wrong number of arguments for " ++ tyname ++ "." ++ method_name ++ "(): expected " ++
    toString expected ++ ", got " ++ toString got

/-- The format string `"{}.{}() expects arguments of type ({}), but got ({})"`. -/
def mismatch_method_message (tyname method_name : String) (expected received : List String) :
    String :=
  tyname ++ "." ++ method_name ++ "() expects arguments of type (" ++
    String.intercalate ", " expected ++ "), but got (" ++ String.intercalate ", " received ++ ")"

/-- The format string `"Type {} does not have methods"`. -/
def no_methods_message (tyname : String) : String :=
  "Type " ++ tyname ++ " does not have methods"

/-- The format string `"Type " + self.instantiated_type.name + " is not instantiable"`. -/
def not_instantiable_message (tyname : String) : String :=
  "Type " ++ tyname ++ " is not instantiable"

/-- The format string `"Wrong number of arguments for {} constructor: expected {}, got {}"`. -/
def wrong_arity_ctor_message (tyname : String) (expected got : Nat) : String :=
  "Wrong number of arguments for " ++ tyname ++ " constructor: expected " ++
    toString expected ++ ", got " ++ toString got

/-- The format string `"{} constructor expects arguments of type ({}), but got ({})"`. -/
def mismatch_ctor_message (tyname : String) (expected received : List String) : String :=
  tyname ++ " constructor expects arguments of type (" ++ String.intercalate ", " expected ++
    "), but got (" ++ String.intercalate ", " received ++ ")"

/-- The list `[receivedArg.static_type().name for receivedArg in self.args]`,
built left to right; a failing `static_type` propagates. -/
def received_names (M : TypeModel) : List Expression → Except JavaError (List String)
  | [] => .ok []
  | a :: as =>
    match static_type M a with
    | .error e => .error e
    | .ok t =>
      match received_names M as with
      | .error e => .error e
      | .ok rest => .ok (M.name t :: rest)

mutual

/-- `Expression.check_types()`.  `Variable` and `Literal` succeed immediately.
`MethodCall` checks its arguments (not its receiver), computes the receiver's
static type, rejects a null receiver (`NoSuchMethod`), rejects a non-object
receiver type, resolves the method, checks arity, then argument compatibility.
`ConstructorCall` checks its arguments, rejects a non-object instantiated type,
fetches the constructor, checks arity, then argument compatibility. -/
def check_types (M : TypeModel) : Expression → Except JavaError Unit
  | .Variable _ _ => .ok ()
  | .Literal _ _ => .ok ()
  | .MethodCall receiver method_name args =>
    match check_args M args with
    | .error e => .error e
    | .ok _ =>
      match static_type M receiver with
      | .error e => .error e
      | .ok st =>
        if st = M.null then
          .error (.NoSuchMethod (cannot_invoke_message method_name (M.name st)))
        else if M.is_subtype_of st M.object then
          match method_named M st method_name with
          | .error e => .error e
          | .ok method =>
            if args.length ≠ method.argument_types.length then
              .error (.JavaTypeError (wrong_arity_method_message (M.name st) method_name
                method.argument_types.length args.length))
            else
              match typecheck_arguments_function_call M args method.argument_types with
              | .error e => .error e
              | .ok ok =>
                if ok then .ok ()
                else
                  match received_names M args with
                  | .error e => .error e
                  | .ok received =>
                    .error (.JavaTypeError (mismatch_method_message (M.name st) method_name
                      (method.argument_types.map M.name) received))
        else
          .error (.JavaTypeError (no_methods_message (M.name st)))
  | .ConstructorCall instantiated_type args =>
    match check_args M args with
    | .error e => .error e
    | .ok _ =>
      if M.is_subtype_of instantiated_type M.object then
        match M.ctor_table instantiated_type with
        | none => .error (.NoSuchMethod ("No constructor on type " ++ M.name instantiated_type))
        | some method =>
          if args.length ≠ method.argument_types.length then
            .error (.JavaTypeError (wrong_arity_ctor_message (M.name instantiated_type)
              method.argument_types.length args.length))
          else
            match typecheck_arguments_function_call M args method.argument_types with
            | .error e => .error e
            | .ok ok =>
              if ok then .ok ()
              else
                match received_names M args with
                | .error e => .error e
                | .ok received =>
                  .error (.JavaTypeError (mismatch_ctor_message (M.name instantiated_type)
                    (method.argument_types.map M.name) received))
      else
        .error (.JavaTypeError (not_instantiable_message (M.name instantiated_type)))

/-- The loop `for arg in self.args: arg.check_types()`: validates each argument
left to right, propagating the first failure. -/
def check_args (M : TypeModel) : List Expression → Except JavaError Unit
  | [] => .ok ()
  | e :: es =>
    match check_types M e with
    | .error err => .error err
    | .ok _ => check_args M es

end

deriving instance DecidableEq for Except

/-- `True` exactly on `MethodCall` nodes; the discriminator used to state on
which variants `static_type` is total. -/
def isMethodCall : Expression → Bool
  | .MethodCall _ _ _ => true
  | _ => false

/-- A concrete `int` type (primitive: not in the object category). -/
def intTy : Ty := ⟨0⟩

/-- A concrete `Object` type (the object category root). -/
def objectTy : Ty := ⟨1⟩

/-- A concrete class type `Foo` in the object category. -/
def fooTy : Ty := ⟨2⟩

/-- The concrete null type. -/
def nullTy : Ty := ⟨3⟩

/-- Concrete subtype relation: `int`, `Object`, `Foo` are subtypes of
themselves, `Foo` is a subtype of `Object`, and the null type is a subtype of
nothing. -/
def testSubtype (a b : Ty) : Bool :=
  (a.id == 0 && b.id == 0) || (a.id == 1 && b.id == 1) ||
    (a.id == 2 && (b.id == 2 || b.id == 1))

/-- Concrete method table: `Foo.bar(int) -> Foo`, `Foo.baz() -> Foo`,
`Foo.obj(Object) -> Foo`; nothing else resolves. -/
def testMethods (t : Ty) (n : String) : Option MethodSignature :=
  if t.id == 2 && n == "bar" then some ⟨[intTy], fooTy⟩
  else if t.id == 2 && n == "baz" then some ⟨[], fooTy⟩
  else if t.id == 2 && n == "obj" then some ⟨[objectTy], fooTy⟩
  else none

/-- Concrete constructor table: `Foo` has constructor `Foo(Object)`. -/
def testCtor (t : Ty) : Option MethodSignature :=
  if t.id == 2 then some ⟨[objectTy], fooTy⟩ else none

/-- Concrete type names. -/
def testName (t : Ty) : String :=
  if t.id == 0 then "int" else if t.id == 1 then "Object"
  else if t.id == 2 then "Foo" else "null"

/-- The concrete hand-built type model used for witnesses and counterexamples
(spec section 9: "a minimal hand-built fake type model"). -/
def testModel : TypeModel :=
  ⟨testSubtype, testMethods, testCtor, testName, nullTy, objectTy⟩

/-- A concrete variable of the primitive type `int`. -/
def intVar : Expression := .Variable "i" intTy

/-- A concrete variable whose declared type is the null type. -/
def nullVar : Expression := .Variable "nv" nullTy

/-- A concrete variable of the class type `Foo`. -/
def fooVar : Expression := .Variable "f" fooTy

/-- C9: for every `Variable` and `Literal` node (including `NullLiteral`),
`check_types` always succeeds returning no value, and `static_type` returns
exactly the declared type (for `Variable`), the literal's type (for `Literal`),
and `Type.null` (for `NullLiteral`, whose value is fixed to `"null"`). -/
theorem variable_literal_check_and_type (M : TypeModel) (n v : String) (t : Ty) :
    check_types M (.Variable n t) = .ok () ∧
    static_type M (.Variable n t) = .ok t ∧
    check_types M (.Literal v t) = .ok () ∧
    static_type M (.Literal v t) = .ok t ∧
    NullLiteral M = .Literal "null" M.null ∧
    check_types M (NullLiteral M) = .ok () ∧
    static_type M (NullLiteral M) = .ok M.null :=
  ⟨rfl, rfl, rfl, rfl, rfl, rfl, rfl⟩

/-- C4: in the per-position argument-compatibility rule, an argument whose
static type is `Type.null` is judged compatible exactly when the expected
parameter type is a subtype of `Type.object`; the hypothesis that `Type.null`
is not a subtype of the expected type is the null-type behavior the spec
ascribes to the (external) type model. -/
theorem null_argument_compatibility (M : TypeModel) (a : Expression) (p : Ty)
    (hnull : M.is_subtype_of M.null p = false)
    (hst : static_type M a = .ok M.null) :
    typecheck_arguments_function_call M [a] [p] = .ok (M.is_subtype_of p M.object) := by
  cases h : M.is_subtype_of p M.object <;>
    simp [typecheck_arguments_function_call, hst, hnull, h]

/-- C4 witness: a null literal is accepted at a `Foo`-typed parameter position
even though the null type is not a subtype of `Foo` (nor of `Object`). -/
theorem null_argument_compatibility_witness :
    typecheck_arguments_function_call testModel [NullLiteral testModel] [fooTy] = .ok true :=
  null_argument_compatibility testModel (NullLiteral testModel) fooTy rfl rfl

/-- C2 counterexample: the receiver's static type is `Type.null`, yet
`check_types` fails with a `JavaTypeError` coming from the ill-typed argument,
not with `NoSuchMethod`. -/
theorem null_receiver_counterexample :
    static_type testModel nullVar = .ok testModel.null ∧
    check_types testModel (.MethodCall nullVar "foo" [.MethodCall intVar "m" []]) =
      .error (.JavaTypeError "Type int does not have methods") :=
  ⟨rfl, rfl⟩

/-- C2 (amended): provided every argument passes its own `check_types`, a
`MethodCall` whose receiver's static type is `Type.null` always fails with
`NoSuchMethod`, regardless of the method name or the arguments supplied. -/
theorem null_receiver_no_such_method (M : TypeModel) (r : Expression) (n : String)
    (args : List Expression)
    (hargs : check_args M args = .ok ())
    (hst : static_type M r = .ok M.null) :
    check_types M (.MethodCall r n args) =
      .error (.NoSuchMethod (cannot_invoke_message n (M.name M.null))) := by
  simp [check_types, hargs, hst]

/-- C2 witness: calling `foo` on a null-typed receiver fails with
`NoSuchMethod`. -/
theorem null_receiver_no_such_method_witness :
    check_types testModel (.MethodCall nullVar "foo" []) =
      .error (.NoSuchMethod "Cannot invoke method foo() on null") :=
  null_receiver_no_such_method testModel nullVar "foo" [] rfl rfl

/-- C8 counterexample: the receiver's static type `int` is neither `Type.null`
nor a subtype of `Type.object`, yet `check_types` fails with the argument's
`NoSuchMethod` error instead of the "does not have methods" `JavaTypeError`,
because the ill-formed argument is validated first. -/
theorem non_object_receiver_counterexample :
    static_type testModel intVar = .ok intTy ∧
    decide (intTy = testModel.null) = false ∧
    testModel.is_subtype_of intTy testModel.object = false ∧
    check_types testModel (.MethodCall intVar "m" [.MethodCall nullVar "f" []]) =
      .error (.NoSuchMethod "Cannot invoke method f() on null") :=
  ⟨rfl, rfl, rfl, rfl⟩

/-- C8 (amended): provided every argument passes its own `check_types`, a
`MethodCall` whose receiver's static type is neither `Type.null` nor a subtype
of `Type.object` fails with the "does not have methods" `JavaTypeError`,
independently of the method table, the arity, or argument compatibility. -/
theorem non_object_receiver_error (M : TypeModel) (r : Expression) (n : String)
    (args : List Expression) (st : Ty)
    (hargs : check_args M args = .ok ())
    (hst : static_type M r = .ok st)
    (hnn : st ≠ M.null)
    (hobj : M.is_subtype_of st M.object = false) :
    check_types M (.MethodCall r n args) =
      .error (.JavaTypeError (no_methods_message (M.name st))) := by
  simp [check_types, hargs, hst, hnn, hobj]

/-- C8 witness: calling any method on an `int`-typed receiver fails with the
"does not have methods" error. -/
theorem non_object_receiver_error_witness :
    check_types testModel (.MethodCall intVar "m" []) =
      .error (.JavaTypeError "Type int does not have methods") :=
  non_object_receiver_error testModel intVar "m" [] intTy rfl rfl (by decide) rfl

/-- C3 counterexample: `static_type` is not total on `MethodCall` nodes: when
the named method does not resolve on the receiver's static type, it fails. -/
theorem static_type_total_counterexample :
    static_type testModel (.MethodCall fooVar "nope" []) =
      .error (.NoSuchMethod "No method nope on type Foo") := rfl

/-- C3 (amended): `static_type` is total on every `Variable`, `Literal`
(including `NullLiteral`) and `ConstructorCall` node, independently of
`check_types`; only a `MethodCall`'s `static_type` can fail (namely when method
resolution on the receiver's static type fails). -/
theorem static_type_total_non_method_call (M : TypeModel) (e : Expression)
    (h : isMethodCall e = false) :
    ∃ t, static_type M e = .ok t := by
  cases e with
  | Variable n t => exact ⟨t, rfl⟩
  | Literal v t => exact ⟨t, rfl⟩
  | MethodCall r n args => simp [isMethodCall] at h
  | ConstructorCall t args => exact ⟨t, rfl⟩

/-- C3 witness: a `ConstructorCall` has a static type even when an argument
inside it would not even type-check. -/
theorem static_type_total_non_method_call_witness :
    ∃ t, static_type testModel (.ConstructorCall intTy [.MethodCall fooVar "nope" []]) = .ok t :=
  static_type_total_non_method_call testModel
    (.ConstructorCall intTy [.MethodCall fooVar "nope" []]) rfl

/-- `M` with its constructor table overridden at the single type `t`; used to
show the checker never reads the constructor of a non-object-category type. -/
def updCtor (M : TypeModel) (t : Ty) (v : Option MethodSignature) : TypeModel :=
  { M with ctor_table := fun s => if s = t then v else M.ctor_table s }

theorem updCtor_is_subtype_of (M : TypeModel) (t : Ty) (v : Option MethodSignature) :
    (updCtor M t v).is_subtype_of = M.is_subtype_of := rfl

theorem updCtor_name (M : TypeModel) (t : Ty) (v : Option MethodSignature) :
    (updCtor M t v).name = M.name := rfl

theorem updCtor_null (M : TypeModel) (t : Ty) (v : Option MethodSignature) :
    (updCtor M t v).null = M.null := rfl

theorem updCtor_object (M : TypeModel) (t : Ty) (v : Option MethodSignature) :
    (updCtor M t v).object = M.object := rfl

theorem updCtor_ctor_table (M : TypeModel) (t : Ty) (v : Option MethodSignature) (s : Ty) :
    (updCtor M t v).ctor_table s = if s = t then v else M.ctor_table s := rfl

theorem method_named_updCtor (M : TypeModel) (t : Ty) (v : Option MethodSignature)
    (s : Ty) (n : String) : method_named (updCtor M t v) s n = method_named M s n := rfl

theorem static_type_updCtor (M : TypeModel) (t : Ty) (v : Option MethodSignature) :
    ∀ e, static_type (updCtor M t v) e = static_type M e
  | .Variable _ _ => rfl
  | .Literal _ _ => rfl
  | .ConstructorCall _ _ => rfl
  | .MethodCall r n args => by
    have ih := static_type_updCtor M t v r
    simp only [static_type, ih]
    rfl

theorem typecheck_args_updCtor (M : TypeModel) (t : Ty) (v : Option MethodSignature) :
    ∀ args types, typecheck_arguments_function_call (updCtor M t v) args types =
      typecheck_arguments_function_call M args types
  | [], _ => rfl
  | _ :: _, [] => rfl
  | arg :: args, type :: types => by
    have ih := typecheck_args_updCtor M t v args types
    cases hst : static_type M arg with
    | error e => simp [typecheck_arguments_function_call, static_type_updCtor, hst]
    | ok st =>
      simp only [typecheck_arguments_function_call, static_type_updCtor, hst]
      cases h1 : M.is_subtype_of st type with
      | true => simpa [updCtor, h1] using ih
      | false =>
        by_cases h2 : st = M.null ∧ M.is_subtype_of type M.object = true
        · simpa [updCtor, h1, h2] using ih
        · simp [updCtor, h1, h2]

theorem received_names_updCtor (M : TypeModel) (t : Ty) (v : Option MethodSignature) :
    ∀ args, received_names (updCtor M t v) args = received_names M args
  | [] => rfl
  | a :: as => by
    have ih := received_names_updCtor M t v as
    cases hst : static_type M a with
    | error e => simp [received_names, static_type_updCtor, hst]
    | ok st => simp [received_names, static_type_updCtor, hst, ih, updCtor_name]

mutual

theorem check_types_updCtor (M : TypeModel) (t : Ty) (v : Option MethodSignature)
    (h : M.is_subtype_of t M.object = false) :
    ∀ e, check_types (updCtor M t v) e = check_types M e
  | .Variable _ _ => rfl
  | .Literal _ _ => rfl
  | .MethodCall r n args => by
    have iha := check_args_updCtor M t v h args
    cases ha : check_args M args with
    | error e => simp [check_types, iha, ha]
    | ok u =>
      cases hst : static_type M r with
      | error e => simp [check_types, iha, ha, static_type_updCtor, hst]
      | ok st =>
        simp only [check_types, iha, ha, static_type_updCtor, hst, updCtor_null,
          updCtor_is_subtype_of, updCtor_object, updCtor_name, method_named_updCtor,
          typecheck_args_updCtor, received_names_updCtor]
  | .ConstructorCall ct args => by
    have iha := check_args_updCtor M t v h args
    cases ha : check_args M args with
    | error e => simp [check_types, iha, ha]
    | ok u =>
      simp only [check_types, iha, ha, updCtor_is_subtype_of, updCtor_object]
      by_cases hobj : M.is_subtype_of ct M.object = true
      · have hne : ct ≠ t := by
          intro heq
          rw [heq, h] at hobj
          exact Bool.false_ne_true hobj
        simp [hobj, updCtor_ctor_table, hne, updCtor_name, typecheck_args_updCtor,
          received_names_updCtor]
      · simp [hobj, updCtor_name]

theorem check_args_updCtor (M : TypeModel) (t : Ty) (v : Option MethodSignature)
    (h : M.is_subtype_of t M.object = false) :
    ∀ es, check_args (updCtor M t v) es = check_args M es
  | [] => rfl
  | e :: es => by
    have ih1 := check_types_updCtor M t v h e
    have ih2 := check_args_updCtor M t v h es
    cases hc : check_types M e with
    | error err => simp [check_args, ih1, hc]
    | ok u => simp [check_args, ih1, ih2, hc]

end

/-- C7: a `ConstructorCall` on a type outside the object category fails with the
"not instantiable" `JavaTypeError`; the check runs after the arguments are
recursively validated (a failing argument's error wins) and the type's
constructor entry is never read (overriding it changes nothing). -/
theorem constructor_call_not_instantiable (M : TypeModel) (t : Ty) (args : List Expression)
    (hobj : M.is_subtype_of t M.object = false) :
    (check_args M args = .ok () →
      check_types M (.ConstructorCall t args) =
        .error (.JavaTypeError (not_instantiable_message (M.name t)))) ∧
    (∀ e, check_args M args = .error e →
      check_types M (.ConstructorCall t args) = .error e) ∧
    (∀ v, check_types (updCtor M t v) (.ConstructorCall t args) =
      check_types M (.ConstructorCall t args)) := by
  refine ⟨fun ha => ?_, fun e ha => ?_, fun v => check_types_updCtor M t v hobj _⟩
  · simp [check_types, ha, hobj]
  · simp [check_types, ha]

/-- C7 witness: `new int()` fails as not instantiable. -/
theorem constructor_call_not_instantiable_witness :
    check_types testModel (.ConstructorCall intTy []) =
      .error (.JavaTypeError "Type int is not instantiable") :=
  (constructor_call_not_instantiable testModel intTy [] rfl).1 rfl

/-- C5 counterexample: `Foo.baz()` takes zero parameters and is called with one
argument, so the arity differs; but because that argument fails its own
`check_types`, the reported error is the argument's "does not have methods"
`JavaTypeError`, whose message contains neither count, not the
wrong-number-of-arguments error. -/
theorem arity_mismatch_counterexample :
    testModel.method_table fooTy "baz" = some ⟨[], fooTy⟩ ∧
    [Expression.MethodCall intVar "m" []].length = 1 ∧
    check_types testModel (.MethodCall fooVar "baz" [.MethodCall intVar "m" []]) =
      .error (.JavaTypeError "Type int does not have methods") :=
  ⟨rfl, rfl, rfl⟩

/-- C5 (amended): provided every argument passes its own `check_types`, a
`MethodCall` with a resolvable method on an object-category receiver type, and a
`ConstructorCall` with an instantiable type owning a constructor, whose argument
count differs from the resolved signature's parameter count, fail with the
wrong-number-of-arguments `JavaTypeError`; its message contains the expected and
the actual counts, and no compatibility hypothesis on the arguments is needed. -/
theorem arity_mismatch_reported (M : TypeModel) :
    (∀ r n args st method,
      check_args M args = .ok () →
      static_type M r = .ok st →
      st ≠ M.null →
      M.is_subtype_of st M.object = true →
      M.method_table st n = some method →
      args.length ≠ method.argument_types.length →
      check_types M (.MethodCall r n args) =
        .error (.JavaTypeError
          (wrong_arity_method_message (M.name st) n method.argument_types.length args.length))) ∧
    (∀ t args method,
      check_args M args = .ok () →
      M.is_subtype_of t M.object = true →
      M.ctor_table t = some method →
      args.length ≠ method.argument_types.length →
      check_types M (.ConstructorCall t args) =
        .error (.JavaTypeError
          (wrong_arity_ctor_message (M.name t) method.argument_types.length args.length))) ∧
    (∀ tyname n expected got,
      (∃ s1 s2, wrong_arity_method_message tyname n expected got =
        s1 ++ toString expected ++ s2) ∧
      (∃ s1 s2, wrong_arity_method_message tyname n expected got = s1 ++ toString got ++ s2) ∧
      (∃ s1 s2, wrong_arity_ctor_message tyname expected got = s1 ++ toString expected ++ s2) ∧
      (∃ s1 s2, wrong_arity_ctor_message tyname expected got = s1 ++ toString got ++ s2)) := by
  refine ⟨?_, ?_, ?_⟩
  · intro r n args st method hargs hst hnn hobj hm hlen
    simp [check_types, hargs, hst, hnn, hobj, method_named, hm, hlen]
  · intro t args method hargs hobj hc hlen
    simp [check_types, hargs, hobj, hc, hlen]
  · intro tyname n expected got
    refine ⟨⟨"Wrong number of arguments for " ++ tyname ++ "." ++ n ++ "(): expected ",
        ", got " ++ toString got, ?_⟩,
      ⟨"Wrong number of arguments for " ++ tyname ++ "." ++ n ++ "(): expected " ++
        toString expected ++ ", got ", "", ?_⟩,
      ⟨"Wrong number of arguments for " ++ tyname ++ " constructor: expected ",
        ", got " ++ toString got, ?_⟩,
      ⟨"Wrong number of arguments for " ++ tyname ++ " constructor: expected " ++
        toString expected ++ ", got ", "", ?_⟩⟩ <;>
    simp [wrong_arity_method_message, wrong_arity_ctor_message, String.append_assoc,
      String.append_empty]

/-- C5 witness: `Foo.bar(int)` called with no arguments, and the constructor
`Foo(Object)` called with no arguments, both report expected and actual counts. -/
theorem arity_mismatch_reported_witness :
    check_types testModel (.MethodCall fooVar "bar" []) =
      .error (.JavaTypeError "Wrong number of arguments for Foo.bar(): expected 1, got 0") ∧
    check_types testModel (.ConstructorCall fooTy []) =
      .error (.JavaTypeError "Wrong number of arguments for Foo constructor: expected 1, got 0") :=
  ⟨(arity_mismatch_reported testModel).1 fooVar "bar" [] fooTy ⟨[intTy], fooTy⟩ rfl rfl
      (by decide) rfl rfl (by decide),
    (arity_mismatch_reported testModel).2.1 fooTy [] ⟨[objectTy], fooTy⟩ rfl rfl rfl (by decide)⟩

/-- C1 counterexample: the receiver subtree is not recursively validated:
`(f.bar()).baz()` passes `check_types` even though its receiver `f.bar()` fails
its own `check_types` with an arity error, so a child's failure does not make
the enclosing call fail. -/
theorem children_first_counterexample :
    check_types testModel (.MethodCall fooVar "bar" []) =
      .error (.JavaTypeError "Wrong number of arguments for Foo.bar(): expected 1, got 0") ∧
    check_types testModel (.MethodCall (.MethodCall fooVar "bar" []) "baz" []) = .ok () :=
  ⟨rfl, rfl⟩

/-- C1 (amended): for every `MethodCall` and `ConstructorCall`, `check_types`
validates the argument subtrees left to right before the node's own operation,
and the first failing argument's error is the one reported, preempting the
node's own arity/type rules; the `MethodCall` receiver, however, is not
recursively validated — only its static type is computed. -/
theorem children_first (M : TypeModel) :
    (∀ r n args e, check_args M args = .error e →
      check_types M (.MethodCall r n args) = .error e) ∧
    (∀ t args e, check_args M args = .error e →
      check_types M (.ConstructorCall t args) = .error e) ∧
    (∀ a as e, check_types M a = .error e → check_args M (a :: as) = .error e) ∧
    (∀ a as, check_types M a = .ok () → check_args M (a :: as) = check_args M as) :=
  ⟨fun r n args e h => by simp [check_types, h],
    fun t args e h => by simp [check_types, h],
    fun a as e h => by simp [check_args, h],
    fun a as h => by simp [check_args, h]⟩

/-- C1 witness: an ill-typed first argument makes the enclosing call fail with
that argument's error before any of the call's own rules run. -/
theorem children_first_witness :
    check_types testModel (.MethodCall fooVar "obj" [.MethodCall intVar "m" []]) =
      .error (.JavaTypeError "Type int does not have methods") :=
  (children_first testModel).1 fooVar "obj" [.MethodCall intVar "m" []]
    (.JavaTypeError "Type int does not have methods") rfl

/-- C10: if a `MethodCall` passes `check_types`, its `static_type` does not
fail: the receiver's static type computes, the named method resolves on it, and
the call's static type is the resolved method's return type. -/
theorem check_ok_static_type_ok (M : TypeModel) (r : Expression) (n : String)
    (args : List Expression)
    (h : check_types M (.MethodCall r n args) = .ok ()) :
    ∃ st method, static_type M r = .ok st ∧ M.method_table st n = some method ∧
      static_type M (.MethodCall r n args) = .ok method.return_type := by
  simp only [check_types] at h
  cases ha : check_args M args with
  | error e => simp [ha] at h
  | ok u =>
    simp only [ha] at h
    cases hst : static_type M r with
    | error e => simp [hst] at h
    | ok st =>
      simp only [hst] at h
      by_cases hn : st = M.null
      · simp [hn] at h
      · simp only [if_neg hn] at h
        by_cases hsub : M.is_subtype_of st M.object = true
        · simp only [hsub, if_pos] at h
          cases hm : M.method_table st n with
          | none => simp [method_named, hm] at h
          | some method =>
            exact ⟨st, method, rfl, hm, by simp [static_type, hst, method_named, hm]⟩
        · simp [hsub] at h

/-- C10 witness: `f.baz()` passes `check_types`, and its static type is `Foo`,
the return type of `Foo.baz()`. -/
theorem check_ok_static_type_ok_witness :
    ∃ st method, static_type testModel fooVar = .ok st ∧
      testModel.method_table st "baz" = some method ∧
      static_type testModel (.MethodCall fooVar "baz" []) = .ok method.return_type :=
  check_ok_static_type_ok testModel fooVar "baz" [] rfl

/-- C6: the argument-compatibility routine returns `True` exactly when every
positional pair up to the length of the shorter sequence is compatible
(subtype, or the null-to-object special case); its result is fully determined by
the first `min`-many positions — positions beyond the shorter sequence's length
are ignored and the two counts are never compared. -/
theorem typecheck_arguments_positional (M : TypeModel) :
    ∀ args types,
      (typecheck_arguments_function_call M args types = .ok true ↔
        ∀ p ∈ args.zip types, ∃ st, static_type M p.1 = .ok st ∧
          (M.is_subtype_of st p.2 = true ∨
            (st = M.null ∧ M.is_subtype_of p.2 M.object = true))) ∧
      typecheck_arguments_function_call M args types =
        typecheck_arguments_function_call M (args.take types.length) (types.take args.length)
  | [], types => by simp [typecheck_arguments_function_call]
  | a :: as, [] => by simp [typecheck_arguments_function_call]
  | a :: as, t :: ts => by
    have ih := typecheck_arguments_positional M as ts
    cases hst : static_type M a with
    | error e =>
      have e1 : typecheck_arguments_function_call M (a :: as) (t :: ts) = .error e := by
        simp [typecheck_arguments_function_call, hst]
      refine ⟨⟨fun hok => absurd (e1 ▸ hok) (by simp), fun hall => ?_⟩, ?_⟩
      · obtain ⟨st2, hst2, _⟩ := hall (a, t) (by simp)
        rw [hst] at hst2
        exact absurd hst2 (by simp)
      · simp [typecheck_arguments_function_call, hst]
    | ok st =>
      by_cases h1 : M.is_subtype_of st t = true
      · have e1 : typecheck_arguments_function_call M (a :: as) (t :: ts) =
            typecheck_arguments_function_call M as ts := by
          simp [typecheck_arguments_function_call, hst, h1]
        refine ⟨?_, ?_⟩
        · rw [e1, List.zip_cons_cons, List.forall_mem_cons]
          exact ⟨fun hok => ⟨⟨st, hst, Or.inl h1⟩, (ih.1).mp hok⟩,
            fun hall => (ih.1).mpr hall.2⟩
        · rw [e1, ih.2]
          simp only [List.length_cons, List.take_succ_cons]
          simp [typecheck_arguments_function_call, hst, h1]
      · by_cases h2 : st = M.null ∧ M.is_subtype_of t M.object = true
        · have e1 : typecheck_arguments_function_call M (a :: as) (t :: ts) =
              typecheck_arguments_function_call M as ts := by
            simp [typecheck_arguments_function_call, hst, h1, h2]
          refine ⟨?_, ?_⟩
          · rw [e1, List.zip_cons_cons, List.forall_mem_cons]
            exact ⟨fun hok => ⟨⟨st, hst, Or.inr h2⟩, (ih.1).mp hok⟩,
              fun hall => (ih.1).mpr hall.2⟩
          · rw [e1, ih.2]
            simp only [List.length_cons, List.take_succ_cons]
            simp [typecheck_arguments_function_call, hst, h1, h2]
        · have e1 : typecheck_arguments_function_call M (a :: as) (t :: ts) = .ok false := by
            simp [typecheck_arguments_function_call, hst, h1, h2]
          refine ⟨⟨fun hok => absurd (e1 ▸ hok) (by simp), fun hall => ?_⟩, ?_⟩
          · obtain ⟨st2, hst2, hcomp⟩ := hall (a, t) (by simp)
            rw [hst] at hst2
            obtain rfl : st = st2 := by simpa using hst2
            rcases hcomp with hc | hc
            · exact absurd hc h1
            · exact absurd hc h2
          · simp only [List.length_cons, List.take_succ_cons]
            simp [typecheck_arguments_function_call, hst, h1, h2]

/-- C6 witness: with more arguments than parameter types, only the first
position is judged (the surplus argument is ignored and the counts are not
compared), so the routine returns `True`. -/
theorem typecheck_arguments_positional_witness :
    typecheck_arguments_function_call testModel [intVar, fooVar] [intTy] = .ok true :=
  ((typecheck_arguments_positional testModel [intVar, fooVar] [intTy]).1).mpr
    (by
      intro p hp
      simp only [List.zip_cons_cons, List.zip_nil_right, List.mem_singleton] at hp
      subst hp
      exact ⟨intTy, rfl, Or.inl rfl⟩)
